import Mathlib

/-!
Shallow embedding of the starfield / matrix-rain animation logic of
`script.js` (functions `initSpaceBackground`, class `Star`, `initStars`,
`animate`, `toggleMatrixMode`, `startMatrixRain`, `stopMatrixRain`).

JavaScript numbers are modelled as rationals.  Each call to `Math.random()`
is modelled as an explicit rational parameter; a valid sample satisfies
`0 ≤ r < 1`, matching the range of `Math.random()`.
-/

namespace Script

/-- Embedding of `const baseStarCount = 400`. -/
def baseStarCount : ℕ := 400

/-- One bundle of the five `Math.random()` samples consumed by `Star.reset`
(in source order: x, z, size, opacity, twinkleSpeed). -/
structure RandStar where
  rx : ℚ
  rz : ℚ
  rsize : ℚ
  ropacity : ℚ
  rtwinkle : ℚ

/-- A random-sample bundle is valid when every sample is in `[0, 1)`,
the range of `Math.random()`. -/
def RandStar.valid (r : RandStar) : Prop :=
  0 ≤ r.rx ∧ r.rx < 1 ∧ 0 ≤ r.rz ∧ r.rz < 1 ∧ 0 ≤ r.rsize ∧ r.rsize < 1 ∧
  0 ≤ r.ropacity ∧ r.ropacity < 1 ∧ 0 ≤ r.rtwinkle ∧ r.rtwinkle < 1

instance : DecidablePred RandStar.valid := fun r => by
  unfold RandStar.valid
  infer_instance

/-- Embedding of the fields of class `Star`. -/
structure Star where
  x : ℚ
  y : ℚ
  z : ℚ
  size : ℚ
  opacity : ℚ
  twinkleSpeed : ℚ
  twinkleDir : ℚ

/-- Embedding of `Star.reset()`:
`x = Math.random() * width; y = -10; z = Math.random() * 2 + 0.5;
size = Math.random() * 1.5; opacity = Math.random() * 0.5 + 0.1;
twinkleSpeed = Math.random() * 0.05; twinkleDir = 1`. -/
def Star.reset (width : ℚ) (r : RandStar) : Star :=
  { x := r.rx * width
    y := -10
    z := r.rz * 2 + 0.5
    size := r.rsize * 1.5
    opacity := r.ropacity * 0.5 + 0.1
    twinkleSpeed := r.rtwinkle * 0.05
    twinkleDir := 1 }

/-- Embedding of the `Star` constructor: `this.reset()` followed by
`this.y = Math.random() * height` (`ry` is that extra sample). -/
def Star.init (width height : ℚ) (r : RandStar) (ry : ℚ) : Star :=
  { Star.reset width r with y := ry * height }

/-- Embedding of `Star.update()`:
`this.y += this.z * 0.2;` then
`this.opacity += this.twinkleSpeed * this.twinkleDir;
if (this.opacity > 0.8 || this.opacity < 0.1) this.twinkleDir *= -1;` then
`if (this.y > height) this.reset();`.
The bundle `r` supplies the `Math.random()` samples used when the reset
branch is taken. -/
def Star.update (width height : ℚ) (r : RandStar) (s : Star) : Star :=
  let y2 := s.y + s.z * 0.2
  let o2 := s.opacity + s.twinkleSpeed * s.twinkleDir
  let d2 := if o2 > 0.8 ∨ o2 < 0.1 then -s.twinkleDir else s.twinkleDir
  if y2 > height then Star.reset width r
  else { s with y := y2, opacity := o2, twinkleDir := d2 }

/-- Iterated per-frame updates of one star; `rnd k` supplies the random
samples available at frame `k`. -/
def updateN (width height : ℚ) (rnd : ℕ → RandStar) : ℕ → Star → Star
  | 0, s => s
  | n + 1, s => Star.update width height (rnd n) (updateN width height rnd n s)

/-- Embedding of `initStars()`: `stars = []; for (i = 0; i < baseStarCount; i++)
stars.push(new Star())`.  `rnd i` supplies the constructor samples of the
`i`-th star (five reset samples plus the initial-y sample). -/
def initStars (width height : ℚ) (rnd : ℕ → RandStar × ℚ) : List Star :=
  (List.range baseStarCount).map (fun i => Star.init width height (rnd i).1 (rnd i).2)

/-- Helper of `updateStars`: updates each star of the list in place, keeping
track of the pool index `i` so each star draws its own random samples. -/
def updateAux (width height : ℚ) (rnd : ℕ → RandStar) : ℕ → List Star → List Star
  | _, [] => []
  | i, s :: rest => Star.update width height (rnd i) s :: updateAux width height rnd (i + 1) rest

/-- Embedding of the `stars.forEach((star, index) => { star.update(); ... })`
update pass of `animate()`: every star of the pool is updated in place. -/
def updateStars (width height : ℚ) (rnd : ℕ → RandStar) (stars : List Star) : List Star :=
  updateAux width height rnd 0 stars

/-- Iterated frames of the update pass; `rnd n i` supplies the samples for
star `i` at frame `n`. -/
def updateStarsN (width height : ℚ) (rnd : ℕ → ℕ → RandStar) : ℕ → List Star → List Star
  | 0, stars => stars
  | n + 1, stars => updateStars width height (rnd n) (updateStarsN width height rnd n stars)

/-- Embedding of the scroll-progress computation of `animate()`:
`const scrollProgress = Math.min(scrollY / maxScroll, 1)` where
`maxScroll = document.body.scrollHeight - window.innerHeight`. -/
def scrollProgressOf (scrollY maxScroll : ℚ) : ℚ :=
  min (scrollY / maxScroll) 1

/-- Embedding of the per-frame cutoff of `animate()`:
`const visibleThreshold = baseStarCount * (0.1 + Math.pow(scrollProgress, 2) * 0.9)`,
generalised over the pool size factor. -/
def visibleThreshold (poolSize : ℚ) (p : ℚ) : ℚ :=
  poolSize * (0.1 + p ^ 2 * 0.9)

/-- Embedding of the per-star alpha of `animate()`:
`const brightness = star.opacity * (0.5 + scrollProgress * 0.5)`. -/
def starBrightness (p : ℚ) (s : Star) : ℚ :=
  s.opacity * (0.5 + p * 0.5)

/-- One `ctx.arc` + `ctx.fill` call issued by `animate()`: a filled circle at
`(x, y)` with the given radius, drawn white at the given alpha. -/
structure DrawCmd where
  x : ℚ
  y : ℚ
  radius : ℚ
  alpha : ℚ

/-- Helper of `renderFrame`: the draw decision of `animate()` for each star,
carrying the pool index `i`.  Position `j` of the result records what is
drawn for star `i + j`: `some` a circle when `index < visibleThreshold`,
`none` when the star is skipped this frame. -/
def renderAux (p : ℚ) : ℕ → List Star → List (Option DrawCmd)
  | _, [] => []
  | i, s :: rest =>
      (if (i : ℚ) < visibleThreshold (baseStarCount : ℚ) p
       then some { x := s.x, y := s.y, radius := s.size, alpha := starBrightness p s }
       else none) :: renderAux p (i + 1) rest

/-- Embedding of the drawing pass of `animate()` at scroll progress `p`:
for each pool index, either the issued draw command or `none`. -/
def renderFrame (p : ℚ) (stars : List Star) : List (Option DrawCmd) :=
  renderAux p 0 stars

/-- Embedding of one whole `animate()` frame: read the scroll state, update
every star, then draw the index-cutoff subset of the updated pool. -/
def animateFrame (width height scrollY maxScroll : ℚ) (rnd : ℕ → RandStar)
    (stars : List Star) : List Star × List (Option DrawCmd) :=
  let p := scrollProgressOf scrollY maxScroll
  let stars2 := updateStars width height rnd stars
  (stars2, renderFrame p stars2)

/-- State of the starfield subsystem once it has started: canvas dimensions,
the star pool, and the scheduled `requestAnimationFrame` loop. -/
structure Starfield where
  width : ℚ
  height : ℚ
  stars : List Star
  animationScheduled : Bool

/-- Embedding of `resize()`: capture the new viewport dimensions, resize the
canvas, and rebuild the pool wholesale with `initStars()` — the old pool is
discarded regardless of its size or content. -/
def Starfield.resize (sys : Starfield) (newW newH : ℚ) (rnd : ℕ → RandStar × ℚ) : Starfield :=
  { sys with width := newW, height := newH, stars := initStars newW newH rnd }

/-- Embedding of `initSpaceBackground()`:
`const canvas = document.getElementById(space-canvas); if (!canvas) return;`
then `resize()` (which calls `initStars()`) and `animate()`.  When the canvas
is absent the function returns without creating any state. -/
def initSpaceBackground (canvasPresent : Bool) (width height : ℚ)
    (rnd : ℕ → RandStar × ℚ) : Option Starfield :=
  if canvasPresent then
    some { width := width, height := height, stars := initStars width height rnd,
           animationScheduled := true }
  else none

/-- State of the matrix-rain easter egg: whether the `setInterval` timer
stored in `matrixInterval` is active, whether the `matrix-rain` canvas
overlay is in the document, and how many times `draw` has run. -/
structure RainSys where
  timer : Bool
  overlay : Bool
  drawCount : ℕ

/-- One timer tick: the `draw` closure runs exactly when the interval timer
is still set; a cleared timer fires no more. -/
def rainTick (st : RainSys) : RainSys :=
  if st.timer then { st with drawCount := st.drawCount + 1 } else st

/-- Embedding of `startMatrixRain()`: appends the `matrix-rain` canvas to the
document and sets `matrixInterval = setInterval(draw, 30)`. -/
def startMatrixRain (st : RainSys) : RainSys :=
  { st with overlay := true, timer := true }

/-- Embedding of `stopMatrixRain()`:
`clearInterval(matrixInterval); const canvas = document.getElementById(matrix-rain);
if (canvas) canvas.remove();` — the removal is guarded on the element existing. -/
def stopMatrixRain (st : RainSys) : RainSys :=
  let st1 : RainSys := { st with timer := false }
  if st1.overlay then { st1 with overlay := false } else st1

/-- Page-level state seen by `toggleMatrixMode`: the `matrix-mode` body class
and the rain subsystem. -/
structure PageState where
  matrixMode : Bool
  rain : RainSys

/-- Embedding of `toggleMatrixMode()`: toggle the body class; if it is now on,
start the rain, otherwise stop it. -/
def toggleMatrixMode (st : PageState) : PageState :=
  let mode := !st.matrixMode
  if mode then { matrixMode := mode, rain := startMatrixRain st.rain }
  else { matrixMode := mode, rain := stopMatrixRain st.rain }

/-- A fixed valid random bundle, used to instantiate theorems at concrete
inputs. -/
def rA : RandStar :=
  { rx := 1/2, rz := 1/2, rsize := 1/2, ropacity := 1/2, rtwinkle := 1/2 }

/-- A fixed concrete star, used to instantiate theorems at concrete inputs. -/
def starA : Star :=
  { x := 3, y := 4, z := 1, size := 1, opacity := 0.3, twinkleSpeed := 0.02,
    twinkleDir := 1 }

/-- Reachability invariant of one star: the twinkle speed is a small
nonnegative step, the twinkle direction is `±1`, and the opacity is either
inside `[0.1, 0.8]` or in the one-step overshoot band just outside it with
the direction already flipped back towards the range. -/
def Star.Inv (s : Star) : Prop :=
  (0 ≤ s.twinkleSpeed ∧ s.twinkleSpeed ≤ 0.7) ∧
  (s.twinkleDir = 1 ∨ s.twinkleDir = -1) ∧
  ((0.1 ≤ s.opacity ∧ s.opacity ≤ 0.8) ∨
   (0.8 < s.opacity ∧ s.opacity ≤ 0.8 + s.twinkleSpeed ∧ s.twinkleDir = -1) ∨
   (0.1 - s.twinkleSpeed ≤ s.opacity ∧ s.opacity < 0.1 ∧ s.twinkleDir = 1))

lemma Star.reset_inv (w : ℚ) (r : RandStar) (hr : r.valid) : (Star.reset w r).Inv := by
  obtain ⟨h1, h2, h3, h4, h5, h6, h7, h8, h9, h10⟩ := hr
  refine ⟨⟨?_, ?_⟩, Or.inl rfl, Or.inl ⟨?_, ?_⟩⟩ <;> simp [Star.reset] <;> nlinarith

lemma Star.init_inv (w h ry : ℚ) (r : RandStar) (hr : r.valid) :
    (Star.init w h r ry).Inv := by
  obtain ⟨h1, h2, h3, h4, h5, h6, h7, h8, h9, h10⟩ := hr
  refine ⟨⟨?_, ?_⟩, Or.inl rfl, Or.inl ⟨?_, ?_⟩⟩ <;>
    simp [Star.init, Star.reset] <;> nlinarith

lemma Star.update_inv (w h : ℚ) (r : RandStar) (s : Star)
    (hs : s.Inv) (hr : r.valid) : (Star.update w h r s).Inv := by
  obtain ⟨⟨hts0, hts7⟩, hdir, hcase⟩ := hs
  by_cases hy : s.y + s.z * 0.2 > h
  · simp only [Star.update, if_pos hy]
    exact Star.reset_inv w r hr
  · simp only [Star.update, if_neg hy]
    by_cases hf : s.opacity + s.twinkleSpeed * s.twinkleDir > 0.8 ∨
        s.opacity + s.twinkleSpeed * s.twinkleDir < 0.1
    · simp only [if_pos hf]
      rcases hdir with hd | hd
      · rcases hcase with hc | hc | hc
        · rcases hf with hf | hf
          · refine ⟨⟨hts0, hts7⟩, Or.inr (by rw [hd]), Or.inr (Or.inl ⟨hf, ?_, by rw [hd]⟩)⟩
            rw [hd] at hf ⊢; nlinarith
          · exfalso; rw [hd] at hf; nlinarith
        · exfalso; rw [hd] at hc; norm_num at hc
        · exfalso; rw [hd] at hf; rcases hf with hf | hf <;> nlinarith
      · rcases hcase with hc | hc | hc
        · rcases hf with hf | hf
          · exfalso; rw [hd] at hf; nlinarith
          · refine ⟨⟨hts0, hts7⟩, Or.inl (by rw [hd]; norm_num),
              Or.inr (Or.inr ⟨?_, hf, by rw [hd]; norm_num⟩)⟩
            rw [hd] at hf ⊢; nlinarith
        · exfalso; rw [hd] at hf; rcases hf with hf | hf <;> nlinarith
        · exfalso; rw [hd] at hc; norm_num at hc
    · simp only [if_neg hf]
      push_neg at hf
      exact ⟨⟨hts0, hts7⟩, hdir, Or.inl ⟨hf.2, hf.1⟩⟩

lemma Star.inv_opacity_bounds (s : Star) (hs : s.Inv) :
    0.1 - s.twinkleSpeed ≤ s.opacity ∧ s.opacity ≤ 0.8 + s.twinkleSpeed := by
  obtain ⟨⟨hts0, _⟩, _, hcase⟩ := hs
  rcases hcase with h | h | h <;> exact ⟨by linarith, by linarith⟩

lemma updateN_inv (w h : ℚ) (rnd : ℕ → RandStar) (hrnd : ∀ k, (rnd k).valid)
    (s : Star) (hs : s.Inv) : ∀ n, (updateN w h rnd n s).Inv := by
  intro n
  induction n with
  | zero => exact hs
  | succ m ih => exact Star.update_inv w h (rnd m) _ ih (hrnd m)

lemma updateAux_length (w h : ℚ) (rnd : ℕ → RandStar) :
    ∀ (l : List Star) (i : ℕ), (updateAux w h rnd i l).length = l.length := by
  intro l
  induction l with
  | nil => intro i; rfl
  | cons s rest ih => intro i; simp [updateAux, ih]

lemma updateAux_get? (w h : ℚ) (rnd : ℕ → RandStar) :
    ∀ (l : List Star) (i j : ℕ),
      (updateAux w h rnd i l).get? j =
        (l.get? j).map (fun s => Star.update w h (rnd (i + j)) s) := by
  intro l
  induction l with
  | nil => intro i j; simp [updateAux]
  | cons s rest ih =>
      intro i j
      cases j with
      | zero => simp [updateAux]
      | succ m =>
          have hidx : i + 1 + m = i + (m + 1) := by omega
          simp only [updateAux, List.get?]
          rw [ih (i + 1) m, hidx]

lemma updateStars_get? (w h : ℚ) (rnd : ℕ → RandStar) (stars : List Star) (i : ℕ) :
    (updateStars w h rnd stars).get? i =
      (stars.get? i).map (fun s => Star.update w h (rnd i) s) := by
  unfold updateStars
  rw [updateAux_get? w h rnd stars 0 i]
  simp

lemma renderAux_get? (p : ℚ) :
    ∀ (l : List Star) (i j : ℕ),
      (renderAux p i l).get? j =
        (l.get? j).map (fun s =>
          if ((i + j : ℕ) : ℚ) < visibleThreshold (baseStarCount : ℚ) p
          then some { x := s.x, y := s.y, radius := s.size, alpha := starBrightness p s }
          else none) := by
  intro l
  induction l with
  | nil => intro i j; simp [renderAux]
  | cons s rest ih =>
      intro i j
      cases j with
      | zero => simp [renderAux]
      | succ m =>
          have hidx : i + 1 + m = i + (m + 1) := by omega
          simp only [renderAux, List.get?]
          rw [ih (i + 1) m, hidx]

lemma renderFrame_get? (p : ℚ) (stars : List Star) (j : ℕ) :
    (renderFrame p stars).get? j =
      (stars.get? j).map (fun s =>
        if (j : ℚ) < visibleThreshold (baseStarCount : ℚ) p
        then some { x := s.x, y := s.y, radius := s.size, alpha := starBrightness p s }
        else none) := by
  unfold renderFrame
  rw [renderAux_get? p stars 0 j]
  simp

lemma rA_valid : rA.valid := by
  norm_num [RandStar.valid, rA]

lemma rainTick_of_timer_false (st : RainSys) (h : st.timer = false) :
    rainTick st = st := by
  simp [rainTick, h]

lemma stopMatrixRain_timer (st : RainSys) : (stopMatrixRain st).timer = false := by
  by_cases hov : st.overlay <;> simp [stopMatrixRain, hov]

lemma stopMatrixRain_overlay (st : RainSys) : (stopMatrixRain st).overlay = false := by
  by_cases hov : st.overlay <;> simp [stopMatrixRain, hov]

/-- C7: for every pool size `N ≥ 0`, the visibility threshold
`N * (0.1 + p^2 * 0.9)` is monotonically non-decreasing in the scroll
progress `p` over `[0, 1]`. -/
theorem c7_threshold_monotone (n p1 p2 : ℚ) (hn : 0 ≤ n) (hp1 : 0 ≤ p1)
    (h12 : p1 ≤ p2) (hp2 : p2 ≤ 1) :
    visibleThreshold n p1 ≤ visibleThreshold n p2 := by
  unfold visibleThreshold
  nlinarith [mul_nonneg hn (sub_nonneg.mpr (pow_le_pow_left₀ hp1 h12 2))]

theorem c7_threshold_monotone_witness :
    visibleThreshold (400 : ℚ) 0 ≤ visibleThreshold (400 : ℚ) (1/2) :=
  c7_threshold_monotone 400 0 (1/2) (by norm_num) (by norm_num) (by norm_num)
    (by norm_num)

/-- C2 counterexample: the code computes
`scrollProgress = Math.min(scrollY / maxScroll, 1)` with no lower clamp, so
at `scrollY = 10` and `maxScroll = -5` (a non-positive denominator with a
nonnegative scroll offset) the computed progress is `-2`, outside `[0, 1]`,
refuting the claim that it always lies in `[0, 1]`. -/
theorem c2_counterexample :
    scrollProgressOf 10 (-5) = -2 ∧
    ¬ (0 ≤ scrollProgressOf 10 (-5) ∧ scrollProgressOf 10 (-5) ≤ 1) ∧
    (0 : ℚ) ≤ 10 := by
  refine ⟨?_, ?_, by norm_num⟩
  · norm_num [scrollProgressOf]
  · norm_num [scrollProgressOf]

/-- C2 (amended): the computed scroll progress equals
`min(scrollY / maxScroll, 1)` — clamped above only — and when `scrollY ≥ 0`
and the denominator `maxScroll` is positive (the non-degenerate case) it lies
in `[0, 1]`. -/
theorem c2_scroll_progress_amended (scrollY maxScroll : ℚ)
    (hy : 0 ≤ scrollY) (hm : 0 < maxScroll) :
    scrollProgressOf scrollY maxScroll = min (scrollY / maxScroll) 1 ∧
    0 ≤ scrollProgressOf scrollY maxScroll ∧
    scrollProgressOf scrollY maxScroll ≤ 1 :=
  ⟨rfl, le_min (div_nonneg hy hm.le) zero_le_one, min_le_right _ _⟩

theorem c2_scroll_progress_amended_witness :
    scrollProgressOf 3 6 = min ((3 : ℚ) / 6) 1 ∧
    0 ≤ scrollProgressOf 3 6 ∧ scrollProgressOf 3 6 ≤ 1 :=
  c2_scroll_progress_amended 3 6 (by norm_num) (by norm_num)

/-- C1: for a pool of 400 stars and scroll progress `p ∈ [0, 1]`, the frame
draws exactly the stars whose pool index is strictly below
`400 * (0.1 + p^2 * 0.9)`, each at alpha `opacity * (0.5 + p * 0.5)`; in
particular at `p = 0` exactly indices `0..39` are drawn at alpha
`opacity * 0.5`, and at `p = 1` every index is drawn at alpha
`opacity * 1`. -/
theorem c1_density_policy (p : ℚ) (hp0 : 0 ≤ p) (hp1 : p ≤ 1)
    (stars : List Star) (hlen : stars.length = 400)
    (i : ℕ) (s : Star) (hs : stars.get? i = some s) :
    (renderFrame p stars).get? i =
      some (if (i : ℚ) < 400 * (0.1 + p ^ 2 * 0.9)
            then some { x := s.x, y := s.y, radius := s.size,
                        alpha := s.opacity * (0.5 + p * 0.5) }
            else none) ∧
    (renderFrame 0 stars).get? i =
      some (if i < 40
            then some { x := s.x, y := s.y, radius := s.size,
                        alpha := s.opacity * 0.5 }
            else none) ∧
    (renderFrame 1 stars).get? i =
      some (some { x := s.x, y := s.y, radius := s.size,
                   alpha := s.opacity * 1 }) := by
  have hi : i < 400 := by
    by_contra hcon
    push_neg at hcon
    have hnone : stars.get? i = none := List.get?_eq_none.mpr (by rw [hlen]; omega)
    rw [hnone] at hs
    exact Option.noConfusion hs
  refine ⟨?_, ?_, ?_⟩
  · rw [renderFrame_get? p stars i, hs]
    norm_num [visibleThreshold, starBrightness, baseStarCount]
  · have hthr : visibleThreshold (baseStarCount : ℚ) 0 = 40 := by
      norm_num [visibleThreshold, baseStarCount]
    have hbr : starBrightness 0 s = s.opacity * 0.5 := by
      norm_num [starBrightness]
    rw [renderFrame_get? 0 stars i, hs]
    simp only [Option.map_some']
    rw [hthr, hbr]
    by_cases hc : i < 40
    · rw [if_pos (by exact_mod_cast hc : (i : ℚ) < 40), if_pos hc]
    · rw [if_neg (by exact_mod_cast hc : ¬ (i : ℚ) < 40), if_neg hc]
  · have hthr : visibleThreshold (baseStarCount : ℚ) 1 = 400 := by
      norm_num [visibleThreshold, baseStarCount]
    have hbr : starBrightness 1 s = s.opacity * 1 := by
      norm_num [starBrightness]
    rw [renderFrame_get? 1 stars i, hs]
    simp only [Option.map_some']
    rw [hthr, hbr]
    rw [if_pos (by exact_mod_cast hi : (i : ℚ) < 400)]

theorem c1_density_policy_witness :
    (renderFrame (1/2) (List.replicate 400 starA)).get? 5 =
      some (if ((5 : ℕ) : ℚ) < 400 * (0.1 + (1/2 : ℚ) ^ 2 * 0.9)
            then some { x := starA.x, y := starA.y, radius := starA.size,
                        alpha := starA.opacity * (0.5 + (1/2 : ℚ) * 0.5) }
            else none) ∧
    (renderFrame 0 (List.replicate 400 starA)).get? 5 =
      some (if (5 : ℕ) < 40
            then some { x := starA.x, y := starA.y, radius := starA.size,
                        alpha := starA.opacity * 0.5 }
            else none) ∧
    (renderFrame 1 (List.replicate 400 starA)).get? 5 =
      some (some { x := starA.x, y := starA.y, radius := starA.size,
                   alpha := starA.opacity * 1 }) :=
  c1_density_policy (1/2) (by norm_num) (by norm_num) _
    (List.length_replicate 400 starA) 5 starA (by rfl)

/-- C3: a star created by the pool-initialization procedure keeps, after any
number of updates (with valid random samples), an opacity within
`[0.1 - ε, 0.8 + ε]` where `ε` is the star's own current twinkle step. -/
theorem c3_opacity_bounds (w h : ℚ) (r : RandStar) (ry : ℚ) (hr : r.valid)
    (rnd : ℕ → RandStar) (hrnd : ∀ k, (rnd k).valid) (n : ℕ) :
    0.1 - (updateN w h rnd n (Star.init w h r ry)).twinkleSpeed ≤
        (updateN w h rnd n (Star.init w h r ry)).opacity ∧
    (updateN w h rnd n (Star.init w h r ry)).opacity ≤
        0.8 + (updateN w h rnd n (Star.init w h r ry)).twinkleSpeed :=
  Star.inv_opacity_bounds _ (updateN_inv w h rnd hrnd _ (Star.init_inv w h ry r hr) n)

theorem c3_opacity_bounds_witness :
    0.1 - (updateN 100 100 (fun _ => rA) 3 (Star.init 100 100 rA (1/2))).twinkleSpeed ≤
        (updateN 100 100 (fun _ => rA) 3 (Star.init 100 100 rA (1/2))).opacity ∧
    (updateN 100 100 (fun _ => rA) 3 (Star.init 100 100 rA (1/2))).opacity ≤
        0.8 + (updateN 100 100 (fun _ => rA) 3 (Star.init 100 100 rA (1/2))).twinkleSpeed :=
  c3_opacity_bounds 100 100 rA (1/2) rA_valid (fun _ => rA) (fun _ => rA_valid) 3

/-- C4: a star whose advanced vertical position exceeds the viewport height
is reinitialized in place by exactly the `reset` procedure, ending strictly
above the top edge (`y = -10 < 0`); the pool keeps its length and the star
keeps its slot. -/
theorem c4_recycle (w h : ℚ) (rnd : ℕ → RandStar) (stars : List Star)
    (i : ℕ) (s : Star) (hs : stars.get? i = some s)
    (hy : s.y + s.z * 0.2 > h) :
    Star.update w h (rnd i) s = Star.reset w (rnd i) ∧
    (Star.update w h (rnd i) s).y = -10 ∧
    (Star.update w h (rnd i) s).y < 0 ∧
    (updateStars w h rnd stars).length = stars.length ∧
    (updateStars w h rnd stars).get? i = some (Star.reset w (rnd i)) := by
  have hupd : Star.update w h (rnd i) s = Star.reset w (rnd i) := by
    simp only [Star.update, if_pos hy]
  refine ⟨hupd, ?_, ?_, updateAux_length w h rnd stars 0, ?_⟩
  · rw [hupd]; rfl
  · rw [hupd]; norm_num [Star.reset]
  · rw [updateStars_get? w h rnd stars i, hs]
    simp [hupd]

theorem c4_recycle_witness :
    Star.update 100 0 rA starA = Star.reset 100 rA ∧
    (Star.update 100 0 rA starA).y = -10 ∧
    (Star.update 100 0 rA starA).y < 0 ∧
    (updateStars 100 0 (fun _ => rA) [starA]).length = ([starA] : List Star).length ∧
    (updateStars 100 0 (fun _ => rA) [starA]).get? 0 = some (Star.reset 100 rA) :=
  c4_recycle 100 0 (fun _ => rA) [starA] 0 starA rfl (by norm_num [starA])

/-- C5: the pool length is preserved exactly by any number of update passes,
and rebuilding the pool (at startup or on any viewport resize) always yields
exactly the configured 400 stars, regardless of the prior pool. -/
theorem c5_pool_length (w h : ℚ) (rnd : ℕ → ℕ → RandStar) (n : ℕ)
    (stars : List Star) (rnd2 : ℕ → RandStar × ℚ) (sys : Starfield) :
    (updateStarsN w h rnd n stars).length = stars.length ∧
    (initStars w h rnd2).length = 400 ∧
    (sys.resize w h rnd2).stars.length = 400 := by
  refine ⟨?_, ?_, ?_⟩
  · induction n with
    | zero => rfl
    | succ m ih =>
        calc (updateStarsN w h rnd (m + 1) stars).length
            = (updateStarsN w h rnd m stars).length :=
              updateAux_length w h (rnd m) _ 0
          _ = stars.length := ih
  · simp [initStars, baseStarCount]
  · simp [Starfield.resize, initStars, baseStarCount]

/-- C6: a star created during pool initialization, from valid random samples
and a positive viewport, has a horizontal position that is the uniform
sample scaled to `[0, width)`, a vertical position that is the uniform
sample scaled to `[0, height)` (screen pre-filled), depth in `[0.5, 2.5)`,
radius in `[0, 1.5)`, opacity in `[0.1, 0.6)`, twinkle speed in `[0, 0.05)`,
and twinkle direction `+1`. -/
theorem c6_init_ranges (w h ry : ℚ) (r : RandStar) (hr : r.valid)
    (hry0 : 0 ≤ ry) (hry1 : ry < 1) (hw : 0 < w) (hh : 0 < h) :
    (Star.init w h r ry).x = r.rx * w ∧
    0 ≤ (Star.init w h r ry).x ∧ (Star.init w h r ry).x < w ∧
    (Star.init w h r ry).y = ry * h ∧
    0 ≤ (Star.init w h r ry).y ∧ (Star.init w h r ry).y < h ∧
    0.5 ≤ (Star.init w h r ry).z ∧ (Star.init w h r ry).z < 2.5 ∧
    0 ≤ (Star.init w h r ry).size ∧ (Star.init w h r ry).size < 1.5 ∧
    0.1 ≤ (Star.init w h r ry).opacity ∧ (Star.init w h r ry).opacity < 0.6 ∧
    0 ≤ (Star.init w h r ry).twinkleSpeed ∧
    (Star.init w h r ry).twinkleSpeed < 0.05 ∧
    (Star.init w h r ry).twinkleDir = 1 := by
  obtain ⟨h1, h2, h3, h4, h5, h6, h7, h8, h9, h10⟩ := hr
  have hx : (Star.init w h r ry).x = r.rx * w := rfl
  have hyy : (Star.init w h r ry).y = ry * h := rfl
  have hz : (Star.init w h r ry).z = r.rz * 2 + 0.5 := rfl
  have hsz : (Star.init w h r ry).size = r.rsize * 1.5 := rfl
  have hop : (Star.init w h r ry).opacity = r.ropacity * 0.5 + 0.1 := rfl
  have hts : (Star.init w h r ry).twinkleSpeed = r.rtwinkle * 0.05 := rfl
  have hdir : (Star.init w h r ry).twinkleDir = 1 := rfl
  rw [hx, hyy, hz, hsz, hop, hts, hdir]
  refine ⟨rfl, mul_nonneg h1 hw.le, mul_lt_of_lt_one_left hw h2, rfl,
    mul_nonneg hry0 hh.le, mul_lt_of_lt_one_left hh hry1,
    ?_, ?_, ?_, ?_, ?_, ?_, ?_, ?_, rfl⟩ <;> linarith

theorem c6_init_ranges_witness :
    (Star.init 100 100 rA (1/2)).x = rA.rx * 100 ∧
    0 ≤ (Star.init 100 100 rA (1/2)).x ∧ (Star.init 100 100 rA (1/2)).x < 100 ∧
    (Star.init 100 100 rA (1/2)).y = (1/2 : ℚ) * 100 ∧
    0 ≤ (Star.init 100 100 rA (1/2)).y ∧ (Star.init 100 100 rA (1/2)).y < 100 ∧
    0.5 ≤ (Star.init 100 100 rA (1/2)).z ∧ (Star.init 100 100 rA (1/2)).z < 2.5 ∧
    0 ≤ (Star.init 100 100 rA (1/2)).size ∧ (Star.init 100 100 rA (1/2)).size < 1.5 ∧
    0.1 ≤ (Star.init 100 100 rA (1/2)).opacity ∧
    (Star.init 100 100 rA (1/2)).opacity < 0.6 ∧
    0 ≤ (Star.init 100 100 rA (1/2)).twinkleSpeed ∧
    (Star.init 100 100 rA (1/2)).twinkleSpeed < 0.05 ∧
    (Star.init 100 100 rA (1/2)).twinkleDir = 1 :=
  c6_init_ranges 100 100 (1/2) rA rA_valid (by norm_num) (by norm_num)
    (by norm_num) (by norm_num)

/-- C8: a single update of a star that does not leave the viewport advances
its vertical position by exactly `z * 0.2`, advances its opacity by the
twinkle step, possibly flips the twinkle direction, and changes nothing
else. -/
theorem c8_nonrecycle_frame_effect (w h : ℚ) (r : RandStar) (s : Star)
    (hy : s.y + s.z * 0.2 ≤ h) :
    (Star.update w h r s).x = s.x ∧
    (Star.update w h r s).y = s.y + s.z * 0.2 ∧
    (Star.update w h r s).z = s.z ∧
    (Star.update w h r s).size = s.size ∧
    (Star.update w h r s).opacity = s.opacity + s.twinkleSpeed * s.twinkleDir ∧
    (Star.update w h r s).twinkleSpeed = s.twinkleSpeed ∧
    ((Star.update w h r s).twinkleDir = s.twinkleDir ∨
      (Star.update w h r s).twinkleDir = -s.twinkleDir) := by
  have hny : ¬ (s.y + s.z * 0.2 > h) := not_lt.mpr hy
  have hupd : Star.update w h r s =
      { s with y := s.y + s.z * 0.2,
               opacity := s.opacity + s.twinkleSpeed * s.twinkleDir,
               twinkleDir :=
                 if s.opacity + s.twinkleSpeed * s.twinkleDir > 0.8 ∨
                    s.opacity + s.twinkleSpeed * s.twinkleDir < 0.1
                 then -s.twinkleDir else s.twinkleDir } := by
    simp only [Star.update, if_neg hny]
  rw [hupd]
  refine ⟨rfl, rfl, rfl, rfl, rfl, rfl, ?_⟩
  by_cases hf : s.opacity + s.twinkleSpeed * s.twinkleDir > 0.8 ∨
      s.opacity + s.twinkleSpeed * s.twinkleDir < 0.1
  · right
    rw [if_pos hf]
  · left
    rw [if_neg hf]

theorem c8_nonrecycle_frame_effect_witness :
    (Star.update 100 100 rA starA).x = starA.x ∧
    (Star.update 100 100 rA starA).y = starA.y + starA.z * 0.2 ∧
    (Star.update 100 100 rA starA).z = starA.z ∧
    (Star.update 100 100 rA starA).size = starA.size ∧
    (Star.update 100 100 rA starA).opacity =
      starA.opacity + starA.twinkleSpeed * starA.twinkleDir ∧
    (Star.update 100 100 rA starA).twinkleSpeed = starA.twinkleSpeed ∧
    ((Star.update 100 100 rA starA).twinkleDir = starA.twinkleDir ∨
      (Star.update 100 100 rA starA).twinkleDir = -starA.twinkleDir) :=
  c8_nonrecycle_frame_effect 100 100 rA starA (by norm_num [starA])

/-- C9: when the canvas element is absent from the document, initialization
of the starfield subsystem returns without creating any state: no pool, no
scheduled loop, no error. -/
theorem c9_missing_canvas_noop (w h : ℚ) (rnd : ℕ → RandStar × ℚ) :
    initSpaceBackground false w h rnd = none := rfl

/-- C10: stopping the matrix rain clears the repeating timer and removes the
overlay canvas; afterwards no tick ever draws again, and stopping when the
overlay is already absent still succeeds with the same cleared state. -/
theorem c10_stop_matrix_rain (st : RainSys) (n : ℕ) :
    (stopMatrixRain st).timer = false ∧
    (stopMatrixRain st).overlay = false ∧
    (rainTick^[n] (stopMatrixRain st)).drawCount = (stopMatrixRain st).drawCount ∧
    stopMatrixRain { st with overlay := false } =
      { timer := false, overlay := false, drawCount := st.drawCount } := by
  have hfix : rainTick^[n] (stopMatrixRain st) = stopMatrixRain st := by
    induction n with
    | zero => rfl
    | succ m ih =>
        rw [Function.iterate_succ_apply', ih]
        exact rainTick_of_timer_false _ (stopMatrixRain_timer st)
  refine ⟨stopMatrixRain_timer st, stopMatrixRain_overlay st, by rw [hfix], ?_⟩
  simp [stopMatrixRain]

end Script
